import Mathlib

set_option maxHeartbeats 1000000

/-!
Verification of the cache-aside orchestration layer of the retail-report service
(`backend/cache.py` and `backend/main.py`).

The model embeds:
* Python JSON-serializable values (`PyObj`): None, bool, int, str, list, dict.
  Floats are outside the shallow embedding; numbers are modelled as integers.
* `json.dumps(value, separators=(",", ":"))` as `dumps` and `json.loads` as
  `parse` (a real executable parser over the compact grammar `dumps` emits;
  strings escape quote and backslash, other characters are carried verbatim).
* The Redis store visible through the code's get/setex/set/scan-delete calls,
  as an association list from key to (serialized value, optional TTL).  Real
  time is not modelled: TTLs are recorded, never decremented.
* The cache helpers `key`, `get_json`, `set_json`, `delete_prefix` from
  `backend/cache.py`, translated line by line.
* The cached endpoints of `backend/main.py`, with the SQL aggregation results
  (the Aggregation Source of the spec) passed in as parameters, and elapsed
  time passed in as a parameter.
* A small interleaving semantics for two concurrent callers of a cached
  endpoint, to settle the stampede claim.
-/

mutual
/-- Python JSON-serializable values.  `PyObj.none` is Python `None` (JSON
`null`).  Numbers are modelled as integers; dict insertion order is kept, as
Python dicts keep it. -/
inductive PyObj where
  | none
  | bool (b : Bool)
  | int (n : Int)
  | str (s : String)
  | list (xs : PyList)
  | dict (fields : PyFields)
/-- A Python list of `PyObj` values. -/
inductive PyList where
  | nil
  | cons (x : PyObj) (xs : PyList)
/-- A Python dict with string keys, in insertion order. -/
inductive PyFields where
  | nil
  | cons (k : String) (v : PyObj) (fs : PyFields)
end

/-- The decimal digit character for `d < 10` (used by the int serializer). -/
def digitChar (d : Nat) : Char :=
  match d with
  | 0 => '0' | 1 => '1' | 2 => '2' | 3 => '3' | 4 => '4'
  | 5 => '5' | 6 => '6' | 7 => '7' | 8 => '8' | _ => '9'

/-- Decimal digits of `n`, most significant first, with an explicit fuel so the
definition is structurally recursive; `natChars` supplies sufficient fuel. -/
def natCharsAux : Nat → Nat → List Char
  | 0, _ => []
  | f + 1, n => if n < 10 then [digitChar n] else natCharsAux f (n / 10) ++ [digitChar (n % 10)]

/-- Decimal digits of a natural number, as Python `str` renders it. -/
def natChars (n : Nat) : List Char := natCharsAux (n + 1) n

/-- Python `str` of an int: an optional minus sign then the decimal digits. -/
def intChars (n : Int) : List Char :=
  if n < 0 then '-' :: natChars n.natAbs else natChars n.natAbs

/-- JSON string-body escaping as `json.dumps` performs it for quote and
backslash; other characters of the modelled character range are emitted
verbatim. -/
def escChars : List Char → List Char
  | [] => []
  | c :: cs =>
    (if c = '"' then ['\\', '"'] else if c = '\\' then ['\\', '\\'] else [c]) ++ escChars cs

/-- The serialized form of a dict key followed by the `:` separator
(`json.dumps` with separators `(",", ":")`). -/
def keyChars (k : String) : List Char :=
  '"' :: (escChars k.data ++ ['"', ':'])

mutual
/-- Character stream of `json.dumps(value, separators=(",", ":"))`. -/
def dumpsChars : PyObj → List Char
  | .none => "null".data
  | .bool true => "true".data
  | .bool false => "false".data
  | .int n => intChars n
  | .str s => '"' :: (escChars s.data ++ ['"'])
  | .list .nil => ['[', ']']
  | .list (.cons x xs) => '[' :: ((dumpsChars x ++ dumpsTail xs) ++ [']'])
  | .dict .nil => ['{', '}']
  | .dict (.cons k v fs) => '{' :: (((keyChars k ++ dumpsChars v) ++ dumpsFTail fs) ++ ['}'])
termination_by structural v => v

/-- Serialization of the remaining list elements, each preceded by a comma. -/
def dumpsTail : PyList → List Char
  | .nil => []
  | .cons x xs => ',' :: dumpsChars x ++ dumpsTail xs
termination_by structural xs => xs

/-- Serialization of the remaining dict members, each preceded by a comma. -/
def dumpsFTail : PyFields → List Char
  | .nil => []
  | .cons k v fs => ',' :: (keyChars k ++ dumpsChars v) ++ dumpsFTail fs
termination_by structural fs => fs
end

/-- One serialized dict member: quoted key, colon, serialized value. -/
def memberChars (k : String) (v : PyObj) : List Char :=
  keyChars k ++ dumpsChars v

/-- The string `json.dumps(value, separators=(",", ":"))` as used by `set_json`. -/
def dumps (v : PyObj) : String := String.mk (dumpsChars v)

/-- Whether a value is Python `None` (the `cached is not None` test of the
endpoints is the negation of this). -/
def isPyNone : PyObj → Bool
  | .none => true
  | _ => false

/-- Whether a character is a decimal digit. -/
def isDig (c : Char) : Bool := 48 ≤ c.toNat && c.toNat ≤ 57

/-- Numeric value of a digit character. -/
def digitVal (c : Char) : Nat := c.toNat - 48

/-- Accumulating decimal evaluation of a digit string. -/
def digitsToNat (acc : Nat) : List Char → Nat
  | [] => acc
  | c :: cs => digitsToNat (acc * 10 + digitVal c) cs

/-- Greedy parse of a nonempty run of decimal digits. -/
def parseDigits (cs : List Char) : Option (Nat × List Char) :=
  let ds := cs.takeWhile isDig
  if ds.isEmpty then none
  else some (digitsToNat 0 ds, cs.dropWhile isDig)

/-- JSON string escape codes accepted by the modelled deserializer. -/
def unescape (c : Char) : Option Char :=
  if c = '"' then some '"'
  else if c = '\\' then some '\\'
  else if c = '/' then some '/'
  else if c = 'n' then some '\n'
  else if c = 't' then some '\t'
  else if c = 'r' then some '\r'
  else none

mutual
/-- Parse a JSON string body up to and including the closing quote, returning
the decoded characters and the remaining input. -/
def parseStrChars : List Char → Option (List Char × List Char)
  | [] => none
  | c :: rest =>
    if c = '"' then some ([], rest)
    else if c = '\\' then parseStrEsc rest
    else
      match parseStrChars rest with
      | some (s, r) => some (c :: s, r)
      | none => none
termination_by structural cs => cs

/-- Parse the remainder of a JSON string body right after a backslash. -/
def parseStrEsc : List Char → Option (List Char × List Char)
  | [] => none
  | e :: rest =>
    match unescape e with
    | some d =>
      match parseStrChars rest with
      | some (s, r) => some (d :: s, r)
      | none => none
    | none => none
termination_by structural cs => cs
end

mutual
/-- Parse one JSON value (fuel-indexed so the mutual recursion is structural;
`parse` supplies fuel exceeding any accepting run's needs). -/
def parseV : Nat → List Char → Option (PyObj × List Char)
  | 0, _ => none
  | f + 1, cs =>
    match cs with
    | [] => none
    | c :: rest =>
      if isDig c then
        match parseDigits (c :: rest) with
        | some (m, r) => some (.int (Int.ofNat m), r)
        | none => none
      else if c = '-' then
        match parseDigits rest with
        | some (m, r) => some (.int (-(Int.ofNat m)), r)
        | none => none
      else if c = '"' then
        match parseStrChars rest with
        | some (s, r) => some (.str (String.mk s), r)
        | none => none
      else if c = 'n' then
        match rest with
        | 'u' :: 'l' :: 'l' :: r => some (.none, r)
        | _ => none
      else if c = 't' then
        match rest with
        | 'r' :: 'u' :: 'e' :: r => some (.bool true, r)
        | _ => none
      else if c = 'f' then
        match rest with
        | 'a' :: 'l' :: 's' :: 'e' :: r => some (.bool false, r)
        | _ => none
      else if c = '[' then
        if rest.head? = some ']' then some (.list .nil, rest.tail)
        else
          match parseV f rest with
          | some (v, r) =>
            match parseArrTail f r with
            | some (vs, r2) => some (.list (.cons v vs), r2)
            | none => none
          | none => none
      else if c = '{' then
        if rest.head? = some '}' then some (.dict .nil, rest.tail)
        else
          match parseMember f rest with
          | some (kv, r) =>
            match parseObjTail f r with
            | some (fs, r2) => some (.dict (.cons kv.1 kv.2 fs), r2)
            | none => none
          | none => none
      else none
termination_by structural f => f

/-- Parse one `"key":value` member of a JSON object. -/
def parseMember : Nat → List Char → Option ((String × PyObj) × List Char)
  | 0, _ => none
  | f + 1, cs =>
    match cs with
    | '"' :: rest =>
      match parseStrChars rest with
      | some (ks, ':' :: r2) =>
        match parseV f r2 with
        | some (v, r3) => some ((String.mk ks, v), r3)
        | none => none
      | _ => none
    | _ => none
termination_by structural f => f

/-- Parse the rest of a JSON array after its first element: either `]` or a
comma-led sequence of further elements. -/
def parseArrTail : Nat → List Char → Option (PyList × List Char)
  | 0, _ => none
  | f + 1, cs =>
    match cs with
    | ']' :: r => some (.nil, r)
    | ',' :: r =>
      match parseV f r with
      | some (v, r2) =>
        match parseArrTail f r2 with
        | some (vs, r3) => some (.cons v vs, r3)
        | none => none
      | none => none
    | _ => none
termination_by structural f => f

/-- Parse the rest of a JSON object after its first member. -/
def parseObjTail : Nat → List Char → Option (PyFields × List Char)
  | 0, _ => none
  | f + 1, cs =>
    match cs with
    | '}' :: r => some (.nil, r)
    | ',' :: r =>
      match parseMember f r with
      | some (kv, r2) =>
        match parseObjTail f r2 with
        | some (fs, r3) => some (.cons kv.1 kv.2 fs, r3)
        | none => none
      | none => none
    | _ => none
termination_by structural f => f
end

/-- Model of `json.loads` on the grammar `dumps` emits: the whole input must parse as
one value; anything else (garbage, truncation, trailing input) is a failure,
returned as `Option.none`. -/
def parse (s : String) : Option PyObj :=
  match parseV (2 * s.length + 2) s.data with
  | some (v, []) => some v
  | _ => none

/-- The first character of `cs`, if any, is not a decimal digit (the condition
under which greedy number parsing stops exactly at a serialized int). -/
def headNotDigit : List Char → Prop
  | [] => True
  | c :: _ => isDig c = false

/-- The Redis keyspace as the code observes it: an association list from key to
(serialized string value, optional TTL in seconds).  TTLs are recorded but time
is not modelled, so entries never expire inside the model. -/
def RedisState := List (String × String × Option Nat)

/-- Redis GET: the stored string for a key, with its TTL record. -/
def rlookup : RedisState → String → Option (String × Option Nat)
  | [], _ => none
  | (k', v, t) :: rest, k => if k' = k then some (v, t) else rlookup rest k

/-- Redis SET (no TTL): stores the value and clears any TTL. -/
def rset (st : RedisState) (k v : String) : RedisState :=
  (k, v, Option.none) :: st.filter (fun e => !(e.1 == k))

/-- Redis SETEX: stores the value with a TTL. -/
def rsetex (st : RedisState) (k : String) (t : Nat) (v : String) : RedisState :=
  (k, v, some t) :: st.filter (fun e => !(e.1 == k))

/-- Redis TTL: -2 for an absent key, -1 for a key with no TTL, else the
recorded TTL (the model does not decrement TTLs over time). -/
def rttl (st : RedisState) (k : String) : Int :=
  match rlookup st k with
  | Option.none => -2
  | some (_, Option.none) => -1
  | some (_, some t) => Int.ofNat t

/-- Default of `settings.CACHE_PREFIX` from `backend/settings.py`. -/
def CACHE_PREFIX : String := "demo"

/-- Remove trailing `:` characters (the tail half of Python `str.strip(":")`). -/
def trimEnd (cs : List Char) : List Char :=
  (cs.reverse.dropWhile (fun c => c = ':')).reverse

/-- Python `p.strip(":")`: remove leading and trailing colons. -/
def stripColons (p : String) : String :=
  String.mk (trimEnd (p.data.dropWhile (fun c => c = ':')))

/-- Function `cache.key` with the namespace prefix made explicit:
`f"{pfx}:" + ":".join(p.strip(":") for p in parts if p is not None)`. -/
def keyP (pfx : String) (parts : List (Option String)) : String :=
  pfx ++ ":" ++ String.intercalate ":" ((parts.filterMap id).map stripColons)

/-- Function `cache.key(*parts)` from `backend/cache.py`. -/
def key (parts : List (Option String)) : String := keyP CACHE_PREFIX parts

/-- Which log line `get_json` prints: HIT, MISS, or the decoding-error report. -/
inductive GetLog where
  | hit
  | miss
  | decodeError

/-- Function `cache.get_json`: GET the key; an absent or empty value is a MISS returning
`None`; a present value is deserialized, with any deserialization failure
caught, logged as an error, and returned as `None`. -/
def get_json (st : RedisState) (k : String) : PyObj × GetLog :=
  match rlookup st k with
  | some (v, _) =>
    if v = "" then (PyObj.none, GetLog.miss)
    else
      match parse v with
      | some obj => (obj, GetLog.hit)
      | Option.none => (PyObj.none, GetLog.decodeError)
  | Option.none => (PyObj.none, GetLog.miss)

/-- Function `cache.set_json`: serialize with compact separators and SETEX when the ttl
is truthy (nonzero), otherwise plain SET. -/
def set_json (st : RedisState) (k : String) (value : PyObj) (ttl : Option Nat) : RedisState :=
  let data := dumps value
  match ttl with
  | some t => if t ≠ 0 then rsetex st k t data else rset st k data
  | Option.none => rset st k data

/-- Everything observable about one `delete_prefix` call: the store afterwards,
the local `count` variable it increments and prints, and the Python return
value — the function body has no return statement, so it returns `None`. -/
structure DelOut where
  store : RedisState
  count : Nat
  ret : Option Nat

/-- Whether a key matches the scan pattern `pfx + "*"` (the prefixes the code
passes contain no other glob characters). -/
def matchesPrefix (pfx k : String) : Bool := pfx.data.isPrefixOf k.data

/-- Function `cache.delete_prefix`: scan-and-delete every key under the prefix, counting
deletions; the count is printed but not returned. -/
def delete_prefix (st : RedisState) (pfx : String) : DelOut :=
  { store := st.filter (fun e => !(matchesPrefix pfx e.1))
    count := (st.filter (fun e => matchesPrefix pfx e.1)).length
    ret := Option.none }

/-- Python string interpolation of an `int | None` value. -/
def pyFormatOptNat : Option Nat → String
  | Option.none => "None"
  | some n => String.mk (natChars n)

/-- The message `clear_data` builds from `removed = delete_prefix(r, ...)`. -/
def clear_data_message (st : RedisState) : String :=
  let removed := ( delete_prefix st (CACHE_PREFIX ++ ":")).ret
  "Database wiped and " ++ pyFormatOptNat removed ++ " Redis keys cleared."

/-- Python `str(n)` for an int. -/
def intStr (n : Int) : String := String.mk (intChars n)

/-- The cache key of `retail_report_cached`:
`key("report", f"retail:{since_days}:{limit}")` — built from the raw request
parameters. -/
def retailReportKey (since_days limit : Int) : String :=
  key [some "report", some ("retail:" ++ intStr since_days ++ ":" ++ intStr limit)]

/-- The cache key of `popular_items_cached`:
`key("popular", f"{since_days}:{limit}")`. -/
def popularKey (since_days limit : Int) : String :=
  key [some "popular", some (intStr since_days ++ ":" ++ intStr limit)]

/-- The limit normalization of `active_shoppers_cached`:
`lim = min(limit, 1200) if (isinstance(limit, int) and limit > 0) else None`. -/
def clampLimit (limit : Int) : Option Int :=
  if limit > 0 then some (min limit 1200) else Option.none

/-- The cache key of `active_shoppers_cached`:
`key("active_shoppers", f"{since_days}:{lim if lim is not None else 'all'}")`. -/
def activeShoppersKey (since_days limit : Int) : String :=
  key [some "active_shoppers",
    some (intStr since_days ++ ":" ++
      (match clampLimit limit with | some l => intStr l | Option.none => "all"))]

/-- The cache key of `customer_detail`:
`key("customer", f"{user_id}:{since_days if since_days is not None else 'all'}")`. -/
def customerKey (user_id : String) (since_days : Option Int) : String :=
  key [some "customer",
    some (user_id ++ ":" ++
      (match since_days with | some d => intStr d | Option.none => "all"))]

/-- Dict field lookup (first occurrence, as Python dicts have unique keys). -/
def plookup : PyFields → String → Option PyObj
  | .nil, _ => Option.none
  | .cons k' v fs, k => if k' = k then some v else plookup fs k

/-- Python `d[k] = v`: replace in place when the key exists, else append. -/
def dictSet : PyFields → String → PyObj → PyFields
  | .nil, k, v => .cons k v .nil
  | .cons k' v' fs, k, v =>
    if k' = k then .cons k' v fs else .cons k' v' (dictSet fs k v)

/-- Python `d.setdefault(k, v)` restricted to its mutation effect. -/
def dictSetdefault (d : PyFields) (k : String) (v : PyObj) : PyFields :=
  if (plookup d k).isSome then d else dictSet d k v

/-- Function `main._wrap`: set a default `elapsed_ms`, set `cached` when given, and
always set `ttl_seconds` (to the given ttl, or JSON null). -/
def _wrap (payload : PyFields) (elapsed_ms : Int) (cached : Option Bool) (ttl : Option Int) : PyFields :=
  let p := dictSetdefault payload "elapsed_ms" (.int elapsed_ms)
  let p2 := match cached with
    | some b => dictSet p "cached" (.bool b)
    | Option.none => p
  dictSet p2 "ttl_seconds" (match ttl with | some t => .int t | Option.none => PyObj.none)

/-- Length of a modelled Python list. -/
def pyLenList : PyList → Nat
  | .nil => 0
  | .cons _ xs => pyLenList xs + 1

/-- Number of members of a modelled Python dict. -/
def pyFieldsLen : PyFields → Nat
  | .nil => 0
  | .cons _ _ fs => pyFieldsLen fs + 1

/-- Python `len` on the container shapes the endpoints apply it to (a sequence
read back from the cache); non-containers are unreachable on those paths. -/
def pyLen : PyObj → Nat
  | .list xs => pyLenList xs
  | .str s => s.length
  | .dict fs => pyFieldsLen fs
  | _ => 0

/-- The observable outcome of one cached-endpoint request: the response body,
the Redis state afterwards, and whether the Aggregation Source (the SQL query)
was invoked. -/
structure Out where
  resp : PyFields
  store : RedisState
  computed : Bool

/-- Endpoint `main.retail_report_cached`.  The SQL aggregation `_build_retail_report` is
the Aggregation Source of the spec and is passed in as `report`; `elapsed_ms`
stands for the measured wall-clock time. -/
def retail_report_cached (since_days limit : Int) (report : PyObj) (elapsed_ms : Int)
    (st : RedisState) : Out :=
  if isPyNone (get_json st (retailReportKey since_days limit)).1 then
    { resp := _wrap (.cons "report" report .nil) elapsed_ms (some false) Option.none
      store := set_json st (retailReportKey since_days limit) report (some 60)
      computed := true }
  else
    { resp := _wrap (.cons "report" (get_json st (retailReportKey since_days limit)).1 .nil)
        elapsed_ms (some true) (some (rttl st (retailReportKey since_days limit)))
      store := st
      computed := false }

/-- Endpoint `main.popular_items_cached`; `items` is the materialized query result. -/
def popular_items_cached (since_days limit : Int) (items : PyList) (elapsed_ms : Int)
    (st : RedisState) : Out :=
  if isPyNone (get_json st (popularKey since_days limit)).1 then
    { resp := _wrap (.cons "success" (.bool true) (.cons "popular_items" (.list items) .nil))
        elapsed_ms (some false) Option.none
      store := set_json st (popularKey since_days limit) (.list items) (some 60)
      computed := true }
  else
    { resp := _wrap (.cons "success" (.bool true)
        (.cons "popular_items" (get_json st (popularKey since_days limit)).1 .nil))
        elapsed_ms (some true) (some (rttl st (popularKey since_days limit)))
      store := st
      computed := false }

/-- Endpoint `main.active_shoppers_cached`; `rows` is the materialized query result for
the clamped limit. -/
def active_shoppers_cached (since_days limit : Int) (rows : PyList) (elapsed_ms : Int)
    (st : RedisState) : Out :=
  if isPyNone (get_json st (activeShoppersKey since_days limit)).1 then
    { resp := _wrap (.cons "total_count" (.int (pyLenList rows))
        (.cons "active_shoppers" (.list rows) .nil))
        elapsed_ms (some false) (some 60)
      store := set_json st (activeShoppersKey since_days limit) (.list rows) (some 60)
      computed := true }
  else
    { resp := _wrap (.cons "total_count" (.int (pyLen (get_json st (activeShoppersKey since_days limit)).1))
        (.cons "active_shoppers" (get_json st (activeShoppersKey since_days limit)).1 .nil))
        elapsed_ms (some true) (some (rttl st (activeShoppersKey since_days limit)))
      store := st
      computed := false }

/-- Remove every occurrence of the substring `urn:` (first step of the Python
standard library UUID constructor's input normalization). -/
def removeUrn : List Char → List Char
  | 'u' :: 'r' :: 'n' :: ':' :: rest => removeUrn rest
  | c :: rest => c :: removeUrn rest
  | [] => []

/-- Remove every occurrence of the substring `uuid:`. -/
def removeUuid : List Char → List Char
  | 'u' :: 'u' :: 'i' :: 'd' :: ':' :: rest => removeUuid rest
  | c :: rest => c :: removeUuid rest
  | [] => []

/-- Strip surrounding curly braces (Python `str.strip("{}")`). -/
def stripBraces (cs : List Char) : List Char :=
  ((cs.dropWhile (fun c => c = '{' || c = '}')).reverse.dropWhile
    (fun c => c = '{' || c = '}')).reverse

/-- Whether a character is a hexadecimal digit. -/
def isHexDig (c : Char) : Bool :=
  (48 ≤ c.toNat && c.toNat ≤ 57) || (97 ≤ c.toNat && c.toNat ≤ 102) ||
    (65 ≤ c.toNat && c.toNat ≤ 70)

/-- Modelled from the Python standard library `uuid.UUID(user_id)` as
`customer_detail` calls it: drop `urn:` and `uuid:` substrings, strip
surrounding braces, drop hyphens, then require exactly 32 hex digits
(the sign/whitespace leniency of `int(s, 16)` is not modelled). -/
def pyUUIDValid (s : String) : Bool :=
  let cs := stripBraces (removeUuid (removeUrn s.data))
  let hexs := cs.filter (fun c => !(c == '-'))
  hexs.length == 32 && hexs.all isHexDig

/-- Python `str.strip()` (whitespace from both ends). -/
def pystrip (s : String) : String :=
  String.mk (((s.data.dropWhile Char.isWhitespace).reverse.dropWhile
    Char.isWhitespace).reverse)

/-- One customer row as the `customers` SELECT returns it. -/
structure CustRow where
  idText : String
  first_name : Option String
  last_name : Option String
  email : Option String

/-- A raised FastAPI `HTTPException`: status code and detail message. -/
structure HTTPExc where
  status : Nat
  detail : String

/-- The observable outcome of one `customer_detail` request: the response or
the raised exception, the Redis state afterwards, whether any cache operation
was performed, and whether the database was queried. -/
structure COut where
  result : Except HTTPExc PyFields
  store : RedisState
  cacheAccessed : Bool
  dbCalled : Bool

/-- A cached payload used as a dict (Python would `TypeError` on a non-dict,
which is unreachable for values this code itself stored). -/
def asDict : PyObj → PyFields
  | .dict fs => fs
  | _ => .nil

/-- The `detail` dict `customer_detail` builds from the SELECT results: the
shaped customer record (name assembled from stripped first/last names, fields
defaulted to the empty string when NULL) and the transaction list. -/
def custDetailFields (row : CustRow) (transactions : PyList) : PyFields :=
  .cons "customer"
    (.dict (.cons "id" (.str row.idText)
      (.cons "name" (.str (pystrip (pystrip (row.first_name.getD "") ++ " " ++
        pystrip (row.last_name.getD ""))))
        (.cons "email" (.str (row.email.getD "")) .nil))))
    (.cons "transactions" (.list transactions) .nil)

/-- Endpoint `main.customer_detail`.  `dbRow` is the customer SELECT's result and
`transactions` the materialized transaction rows (the Aggregation Source);
UUID validation happens before any cache or database access. -/
def customer_detail (user_id : String) (since_days : Option Int) (dbRow : Option CustRow)
    (transactions : PyList) (elapsed_ms : Int) (st : RedisState) : COut :=
  if pyUUIDValid user_id = false then
    { result := .error { status := 400, detail := "Invalid user_id" }
      store := st, cacheAccessed := false, dbCalled := false }
  else
    if isPyNone (get_json st (customerKey user_id since_days)).1 then
      match dbRow with
      | Option.none =>
        { result := .error { status := 404, detail := "Customer not found" }
          store := st, cacheAccessed := true, dbCalled := true }
      | some row =>
        { result := .ok (_wrap (custDetailFields row transactions) elapsed_ms
            (some false) Option.none)
          store := set_json st (customerKey user_id since_days)
            (.dict (custDetailFields row transactions)) Option.none
          cacheAccessed := true, dbCalled := true }
    else
      { result := .ok (_wrap (asDict (get_json st (customerKey user_id since_days)).1)
          elapsed_ms (some true) (some (rttl st (customerKey user_id since_days))))
        store := st, cacheAccessed := true, dbCalled := false }

/-- Control point of one concurrent caller of `retail_report_cached`: about to
issue the cache GET; past a miss and about to run the SQL query and store the
result; or finished (recording whether it was served from the cache). -/
inductive CPhase where
  | toRead
  | toCompute
  | finished (servedFromCache : Bool)

/-- Global state of the concurrency model: the shared Redis store, each
caller's control point, and how many times the Aggregation Source ran. -/
structure Sys where
  store : RedisState
  callers : List CPhase
  computeCount : Nat

/-- One atomic step of one caller of `retail_report_cached` for key `k`: the
cache GET with its hit/miss branch, or the compute-and-SETEX sequence.  The
suspension points between these steps are where the event loop interleaves
concurrent requests. -/
def stepCaller (k : String) (report : PyObj) (st : RedisState) :
    CPhase → RedisState × CPhase × Nat
  | .toRead =>
    if isPyNone (get_json st k).1 then (st, .toCompute, 0)
    else (st, .finished true, 0)
  | .toCompute => (set_json st k report (some 60), .finished false, 1)
  | .finished b => (st, .finished b, 0)

/-- Let caller `i` take its next step (out-of-range indices are no-ops). -/
def schedStep (k : String) (report : PyObj) (s : Sys) (i : Nat) : Sys :=
  match s.callers.get? i with
  | some p =>
    { store := (stepCaller k report s.store p).1
      callers := s.callers.set i (stepCaller k report s.store p).2.1
      computeCount := s.computeCount + (stepCaller k report s.store p).2.2 }
  | Option.none => s

/-- Run the callers under an explicit interleaving schedule. -/
def runSched (k : String) (report : PyObj) (sched : List Nat) (s : Sys) : Sys :=
  match sched with
  | [] => s
  | i :: rest => runSched k report rest (schedStep k report s i)

/-- Fresh concurrent callers (n of them) over an empty store (a never-before-seen key). -/
def freshSys (n : Nat) : Sys :=
  { store := [], callers := List.replicate n .toRead, computeCount := 0 }

theorem takeWhile_append_all {p : Char → Bool} {l1 l2 : List Char}
    (h : ∀ a ∈ l1, p a = true) :
    (l1 ++ l2).takeWhile p = l1 ++ l2.takeWhile p := by
  induction l1 with
  | nil => simp
  | cons a l ih =>
    have ha := h a (by simp)
    simp only [List.cons_append, List.takeWhile_cons, ha, if_true]
    rw [ih (fun b hb => h b (by simp [hb]))]

theorem dropWhile_append_all {p : Char → Bool} {l1 l2 : List Char}
    (h : ∀ a ∈ l1, p a = true) :
    (l1 ++ l2).dropWhile p = l2.dropWhile p := by
  induction l1 with
  | nil => simp
  | cons a l ih =>
    have ha := h a (by simp)
    simp only [List.cons_append, List.dropWhile_cons, ha, if_true]
    exact ih (fun b hb => h b (by simp [hb]))

theorem isDig_digitChar {d : Nat} (h : d < 10) : isDig (digitChar d) = true := by
  interval_cases d <;> decide

theorem digitVal_digitChar {d : Nat} (h : d < 10) : digitVal (digitChar d) = d := by
  interval_cases d <;> decide

theorem natCharsAux_digits {f n : Nat} (h : n < f) :
    ∀ c ∈ natCharsAux f n, isDig c = true := by
  induction f generalizing n with
  | zero => omega
  | succ f ih =>
    intro c hc
    rw [natCharsAux] at hc
    by_cases h10 : n < 10
    · rw [if_pos h10] at hc
      simp only [List.mem_singleton] at hc
      subst hc
      exact isDig_digitChar h10
    · rw [if_neg h10] at hc
      simp only [List.mem_append, List.mem_singleton] at hc
      rcases hc with hc | hc
      · exact ih (by omega) c hc
      · subst hc
        exact isDig_digitChar (by omega)

theorem natCharsAux_ne_nil {f n : Nat} (h : n < f) : natCharsAux f n ≠ [] := by
  cases f with
  | zero => omega
  | succ f =>
    rw [natCharsAux]
    by_cases h10 : n < 10
    · rw [if_pos h10]; simp
    · rw [if_neg h10]; simp

theorem digitsToNat_append (acc : Nat) (xs ys : List Char) :
    digitsToNat acc (xs ++ ys) = digitsToNat (digitsToNat acc xs) ys := by
  induction xs generalizing acc with
  | nil => rfl
  | cons c cs ih => exact ih (acc * 10 + digitVal c)

theorem digitsToNat_natCharsAux {f n : Nat} (acc : Nat) (h : n < f) :
    digitsToNat acc (natCharsAux f n) = acc * 10 ^ (natCharsAux f n).length + n := by
  induction f generalizing n acc with
  | zero => omega
  | succ f ih =>
    rw [natCharsAux]
    by_cases h10 : n < 10
    · rw [if_pos h10]
      have h1 : digitsToNat acc [digitChar n] = acc * 10 + digitVal (digitChar n) := rfl
      rw [h1, digitVal_digitChar h10]
      simp
    · rw [if_neg h10]
      rw [digitsToNat_append]
      rw [ih acc (by omega)]
      have hm : n % 10 < 10 := Nat.mod_lt n (by omega)
      have h1 : digitsToNat (acc * 10 ^ (natCharsAux f (n / 10)).length + n / 10)
          [digitChar (n % 10)]
          = (acc * 10 ^ (natCharsAux f (n / 10)).length + n / 10) * 10 +
            digitVal (digitChar (n % 10)) := rfl
      rw [h1, digitVal_digitChar hm]
      simp only [List.length_append, List.length_singleton]
      calc (acc * 10 ^ (natCharsAux f (n / 10)).length + n / 10) * 10 + n % 10
          = acc * (10 ^ (natCharsAux f (n / 10)).length * 10) + (10 * (n / 10) + n % 10) := by
            ring
        _ = acc * 10 ^ ((natCharsAux f (n / 10)).length + 1) + n := by
            rw [← pow_succ]
            congr 1
            omega

theorem takeWhile_headNotDigit {rest : List Char} (h : headNotDigit rest) :
    rest.takeWhile isDig = [] := by
  cases rest with
  | nil => rfl
  | cons c cs =>
    simp only [headNotDigit] at h
    simp [List.takeWhile_cons, h]

theorem dropWhile_headNotDigit {rest : List Char} (h : headNotDigit rest) :
    rest.dropWhile isDig = rest := by
  cases rest with
  | nil => rfl
  | cons c cs =>
    simp only [headNotDigit] at h
    simp [List.dropWhile_cons, h]

theorem parseDigits_natChars (n : Nat) (rest : List Char) (h : headNotDigit rest) :
    parseDigits (natChars n ++ rest) = some (n, rest) := by
  have hd := @natCharsAux_digits (n + 1) n (by omega)
  have hne := @natCharsAux_ne_nil (n + 1) n (by omega)
  simp only [parseDigits, natChars]
  rw [takeWhile_append_all hd, takeWhile_headNotDigit h, List.append_nil]
  rw [dropWhile_append_all hd, dropWhile_headNotDigit h]
  have hie : (natCharsAux (n + 1) n).isEmpty = false := by
    cases hA : natCharsAux (n + 1) n with
    | nil => exact absurd hA hne
    | cons a as => rfl
  rw [hie]
  simp only [Bool.false_eq_true, if_false, Option.some.injEq, Prod.mk.injEq]
  refine ⟨?_, trivial⟩
  have h2 := @digitsToNat_natCharsAux (n + 1) n 0 (by omega)
  simpa using h2

theorem parseStrChars_escChars (s rest : List Char) :
    parseStrChars (escChars s ++ '"' :: rest) = some (s, rest) := by
  induction s with
  | nil => rfl
  | cons c cs ih =>
    by_cases h1 : c = '"'
    · subst h1
      show (match parseStrChars (escChars cs ++ '"' :: rest) with
            | some (s, r) => some ('"' :: s, r)
            | Option.none => Option.none) = some ('"' :: cs, rest)
      rw [ih]
    · by_cases h2 : c = '\\'
      · subst h2
        show (match parseStrChars (escChars cs ++ '"' :: rest) with
              | some (s, r) => some ('\\' :: s, r)
              | Option.none => Option.none) = some ('\\' :: cs, rest)
        rw [ih]
      · show parseStrChars (((if c = '"' then ['\\', '"'] else if c = '\\' then ['\\', '\\'] else [c]) ++ escChars cs) ++ '"' :: rest) = some (c :: cs, rest)
        rw [if_neg h1, if_neg h2]
        show parseStrChars (c :: (escChars cs ++ '"' :: rest)) = some (c :: cs, rest)
        have hred : parseStrChars (c :: (escChars cs ++ '"' :: rest)) =
            if c = '"' then some ([], escChars cs ++ '"' :: rest)
            else if c = '\\' then parseStrEsc (escChars cs ++ '"' :: rest)
            else
              (match parseStrChars (escChars cs ++ '"' :: rest) with
               | some (s, r) => some (c :: s, r)
               | Option.none => Option.none) := rfl
        rw [hred, if_neg h1, if_neg h2, ih]

theorem natChars_head (n : Nat) :
    ∃ c t, natChars n = c :: t ∧ isDig c = true := by
  cases hA : natChars n with
  | nil => exact absurd hA (@natCharsAux_ne_nil (n + 1) n (by omega))
  | cons c t =>
    refine ⟨c, t, rfl, ?_⟩
    exact @natCharsAux_digits (n + 1) n (by omega) c (by rw [natChars] at hA; rw [hA]; simp)

theorem dumpsChars_head (v : PyObj) :
    ∃ c t, dumpsChars v = c :: t ∧ c ≠ ']' ∧ c ≠ '}' := by
  cases v with
  | none => exact ⟨'n', _, rfl, by decide, by decide⟩
  | bool b => cases b with
    | true => exact ⟨'t', _, rfl, by decide, by decide⟩
    | false => exact ⟨'f', _, rfl, by decide, by decide⟩
  | int n =>
    show ∃ c t, intChars n = c :: t ∧ c ≠ ']' ∧ c ≠ '}'
    by_cases hn : n < 0
    · rw [intChars, if_pos hn]
      exact ⟨'-', _, rfl, by decide, by decide⟩
    · rw [intChars, if_neg hn]
      obtain ⟨c, t, he, hd⟩ := natChars_head n.natAbs
      refine ⟨c, t, he, ?_, ?_⟩
      · intro hc; subst hc; exact absurd hd (by decide)
      · intro hc; subst hc; exact absurd hd (by decide)
  | str s => exact ⟨'"', _, rfl, by decide, by decide⟩
  | list xs => cases xs with
    | nil => exact ⟨'[', _, rfl, by decide, by decide⟩
    | cons x xs2 => exact ⟨'[', _, rfl, by decide, by decide⟩
  | dict fs => cases fs with
    | nil => exact ⟨'{', _, rfl, by decide, by decide⟩
    | cons k v2 fs2 => exact ⟨'{', _, rfl, by decide, by decide⟩

theorem dumpsChars_ne_nil (v : PyObj) : dumpsChars v ≠ [] := by
  obtain ⟨c, t, he, _, _⟩ := dumpsChars_head v
  rw [he]
  simp

theorem dumps_head_ne_sq (v : PyObj) (r : List Char) :
    ¬ (dumpsChars v ++ r).head? = some ']' := by
  obtain ⟨c, t, he, h1, _⟩ := dumpsChars_head v
  rw [he]
  simpa using h1

theorem dumps_head_ne_cu (v : PyObj) (r : List Char) :
    ¬ (dumpsChars v ++ r).head? = some '}' := by
  obtain ⟨c, t, he, _, h2⟩ := dumpsChars_head v
  rw [he]
  simpa using h2

theorem headNotDigit_dumpsTail {c0 : Char} (xs : PyList) (r : List Char)
    (h : isDig c0 = false) : headNotDigit (dumpsTail xs ++ c0 :: r) := by
  cases xs with
  | nil => exact h
  | cons x xs2 =>
    show headNotDigit ((',' :: (dumpsChars x ++ dumpsTail xs2)) ++ c0 :: r)
    exact (by decide : isDig ',' = false)

theorem headNotDigit_dumpsFTail {c0 : Char} (fs : PyFields) (r : List Char)
    (h : isDig c0 = false) : headNotDigit (dumpsFTail fs ++ c0 :: r) := by
  cases fs with
  | nil => exact h
  | cons k v fs2 =>
    show headNotDigit ((',' :: ((keyChars k ++ dumpsChars v) ++ dumpsFTail fs2)) ++ c0 :: r)
    exact (by decide : isDig ',' = false)

theorem parseV_succ (f : Nat) (c : Char) (rest : List Char) :
    parseV (f + 1) (c :: rest) =
      if isDig c then
        match parseDigits (c :: rest) with
        | some (m, r) => some (.int (Int.ofNat m), r)
        | Option.none => Option.none
      else if c = '-' then
        match parseDigits rest with
        | some (m, r) => some (.int (-(Int.ofNat m)), r)
        | Option.none => Option.none
      else if c = '"' then
        match parseStrChars rest with
        | some (s, r) => some (.str (String.mk s), r)
        | Option.none => Option.none
      else if c = 'n' then
        (match rest with
         | 'u' :: 'l' :: 'l' :: r => some (.none, r)
         | _ => Option.none)
      else if c = 't' then
        (match rest with
         | 'r' :: 'u' :: 'e' :: r => some (.bool true, r)
         | _ => Option.none)
      else if c = 'f' then
        (match rest with
         | 'a' :: 'l' :: 's' :: 'e' :: r => some (.bool false, r)
         | _ => Option.none)
      else if c = '[' then
        (if rest.head? = some ']' then some (.list .nil, rest.tail)
         else
           match parseV f rest with
           | some (v, r) =>
             (match parseArrTail f r with
              | some (vs, r2) => some (.list (.cons v vs), r2)
              | Option.none => Option.none)
           | Option.none => Option.none)
      else if c = '{' then
        (if rest.head? = some '}' then some (.dict .nil, rest.tail)
         else
           match parseMember f rest with
           | some (kv, r) =>
             (match parseObjTail f r with
              | some (fs, r2) => some (.dict (.cons kv.1 kv.2 fs), r2)
              | Option.none => Option.none)
           | Option.none => Option.none)
      else Option.none := rfl

theorem parseArrTail_rb (f : Nat) (r : List Char) :
    parseArrTail (f + 1) (']' :: r) = some (.nil, r) := rfl

theorem parseArrTail_comma (f : Nat) (r : List Char) :
    parseArrTail (f + 1) (',' :: r) =
      match parseV f r with
      | some (v, r2) =>
        (match parseArrTail f r2 with
         | some (vs, r3) => some (.cons v vs, r3)
         | Option.none => Option.none)
      | Option.none => Option.none := rfl

theorem parseObjTail_rb (f : Nat) (r : List Char) :
    parseObjTail (f + 1) ('}' :: r) = some (.nil, r) := rfl

theorem parseObjTail_comma (f : Nat) (r : List Char) :
    parseObjTail (f + 1) (',' :: r) =
      match parseMember f r with
      | some (kv, r2) =>
        (match parseObjTail f r2 with
         | some (fs, r3) => some (.cons kv.1 kv.2 fs, r3)
         | Option.none => Option.none)
      | Option.none => Option.none := rfl

theorem parseMember_succ (f : Nat) (rest : List Char) :
    parseMember (f + 1) ('"' :: rest) =
      match parseStrChars rest with
      | some (ks, ':' :: r2) =>
        (match parseV f r2 with
         | some (v, r3) => some ((String.mk ks, v), r3)
         | Option.none => Option.none)
      | _ => Option.none := rfl

theorem parseV_intChars (f : Nat) (n : Int) (rest : List Char) (h : headNotDigit rest) :
    parseV (f + 1) (intChars n ++ rest) = some (.int n, rest) := by
  by_cases hn : n < 0
  · rw [intChars, if_pos hn]
    show parseV (f + 1) ('-' :: (natChars n.natAbs ++ rest)) = some (.int n, rest)
    rw [parseV_succ, if_neg (by decide : ¬ isDig '-' = true), if_pos (rfl : '-' = '-')]
    rw [parseDigits_natChars n.natAbs rest h]
    show some (PyObj.int (-(Int.ofNat n.natAbs)), rest) = some (PyObj.int n, rest)
    have e1 : Int.ofNat n.natAbs = (n.natAbs : Int) := rfl
    have h2 : -(Int.ofNat n.natAbs) = n := by rw [e1]; omega
    rw [h2]
  · rw [intChars, if_neg hn]
    obtain ⟨c, t, he, hd⟩ := natChars_head n.natAbs
    rw [he]
    show parseV (f + 1) (c :: (t ++ rest)) = some (.int n, rest)
    rw [parseV_succ, if_pos hd]
    have hpd : parseDigits (c :: (t ++ rest)) = some (n.natAbs, rest) := by
      have h1 : (c :: t) ++ rest = c :: (t ++ rest) := rfl
      rw [← h1, ← he]
      exact parseDigits_natChars n.natAbs rest h
    rw [hpd]
    show some (PyObj.int (Int.ofNat n.natAbs), rest) = some (PyObj.int n, rest)
    have e1 : Int.ofNat n.natAbs = (n.natAbs : Int) := rfl
    have h2 : Int.ofNat n.natAbs = n := by rw [e1]; omega
    rw [h2]

theorem roundTripAux (f : Nat) :
    (∀ v rest, (dumpsChars v).length < f → headNotDigit rest →
      parseV f (dumpsChars v ++ rest) = some (v, rest)) ∧
    (∀ k v rest, (dumpsChars v).length + 1 < f → headNotDigit rest →
      parseMember f (keyChars k ++ (dumpsChars v ++ rest)) = some ((k, v), rest)) ∧
    (∀ xs rest, (dumpsTail xs).length < f →
      parseArrTail f (dumpsTail xs ++ ']' :: rest) = some (xs, rest)) ∧
    (∀ fs rest, (dumpsFTail fs).length < f →
      parseObjTail f (dumpsFTail fs ++ '}' :: rest) = some (fs, rest)) := by
  induction f with
  | zero =>
    refine ⟨?_, ?_, ?_, ?_⟩
    · intro v rest h1 _; omega
    · intro k v rest h1 _; omega
    · intro xs rest h1; omega
    · intro fs rest h1; omega
  | succ f ih =>
    obtain ⟨ihV, ihM, ihA, ihO⟩ := ih
    refine ⟨?_, ?_, ?_, ?_⟩
    · intro v rest hlen hrest
      cases v with
      | none => rfl
      | bool b => cases b with
        | true => rfl
        | false => rfl
      | int n => exact parseV_intChars f n rest hrest
      | str s =>
        show parseV (f + 1) ('"' :: ((escChars s.data ++ ['"']) ++ rest)) = some (.str s, rest)
        rw [parseV_succ, if_neg (by decide : ¬ isDig '"' = true),
          if_neg (by decide : ¬ '"' = '-'), if_pos (rfl : '"' = '"')]
        have hs : (escChars s.data ++ ['"']) ++ rest = escChars s.data ++ '"' :: rest := by
          simp
        rw [hs, parseStrChars_escChars]
      | list xs =>
        cases xs with
        | nil => rfl
        | cons x xs2 =>
          show parseV (f + 1)
              ('[' :: (((dumpsChars x ++ dumpsTail xs2) ++ [']']) ++ rest)) =
            some (.list (.cons x xs2), rest)
          have hL : (dumpsChars x).length + (dumpsTail xs2).length + 2 < f + 1 := by
            have e : dumpsChars (PyObj.list (.cons x xs2)) =
                '[' :: ((dumpsChars x ++ dumpsTail xs2) ++ [']']) := rfl
            rw [e] at hlen
            simp only [List.length_cons, List.length_append, List.length_singleton] at hlen
            omega
          rw [parseV_succ, if_neg (by decide : ¬ isDig '[' = true),
            if_neg (by decide : ¬ '[' = '-'), if_neg (by decide : ¬ '[' = '"'),
            if_neg (by decide : ¬ '[' = 'n'), if_neg (by decide : ¬ '[' = 't'),
            if_neg (by decide : ¬ '[' = 'f'), if_pos (rfl : '[' = '[')]
          simp only [List.append_assoc, List.singleton_append]
          rw [if_neg (dumps_head_ne_sq x (dumpsTail xs2 ++ ']' :: rest))]
          have h1 := ihV x (dumpsTail xs2 ++ ']' :: rest) (by omega)
            (headNotDigit_dumpsTail xs2 rest (by decide))
          have h2 := ihA xs2 rest (by omega)
          simp only [h1, h2]
      | dict fs =>
        cases fs with
        | nil => rfl
        | cons k v fs2 =>
          show parseV (f + 1)
              ('{' :: ((((keyChars k ++ dumpsChars v) ++ dumpsFTail fs2) ++ ['}']) ++ rest)) =
            some (.dict (.cons k v fs2), rest)
          have hL : (keyChars k).length + (dumpsChars v).length + (dumpsFTail fs2).length + 2
              < f + 1 := by
            have e : dumpsChars (PyObj.dict (.cons k v fs2)) =
                '{' :: ((((keyChars k ++ dumpsChars v) ++ dumpsFTail fs2)) ++ ['}']) := rfl
            rw [e] at hlen
            simp only [List.length_cons, List.length_append, List.length_singleton] at hlen
            omega
          have hK : 3 ≤ (keyChars k).length := by
            show 3 ≤ ('"' :: (escChars k.data ++ ['"', ':'])).length
            simp
          rw [parseV_succ, if_neg (by decide : ¬ isDig '{' = true),
            if_neg (by decide : ¬ '{' = '-'), if_neg (by decide : ¬ '{' = '"'),
            if_neg (by decide : ¬ '{' = 'n'), if_neg (by decide : ¬ '{' = 't'),
            if_neg (by decide : ¬ '{' = 'f'), if_neg (by decide : ¬ '{' = '['),
            if_pos (rfl : '{' = '{')]
          simp only [List.append_assoc, List.singleton_append]
          have hh : ¬ ((keyChars k ++ (dumpsChars v ++ (dumpsFTail fs2 ++ '}' :: rest))).head? =
              some '}') := by
            show ¬ (('"' :: (escChars k.data ++ ['"', ':'])) ++
              (dumpsChars v ++ (dumpsFTail fs2 ++ '}' :: rest))).head? = some '}'
            simp
          rw [if_neg hh]
          have h1 := ihM k v (dumpsFTail fs2 ++ '}' :: rest) (by omega)
            (headNotDigit_dumpsFTail fs2 rest (by decide))
          have h2 := ihO fs2 rest (by omega)
          simp only [h1, h2]
    · intro k v rest hlen hrest
      show parseMember (f + 1)
          ('"' :: ((escChars k.data ++ ['"', ':']) ++ (dumpsChars v ++ rest))) =
        some ((k, v), rest)
      rw [parseMember_succ]
      have hs : (escChars k.data ++ ['"', ':']) ++ (dumpsChars v ++ rest) =
          escChars k.data ++ '"' :: (':' :: (dumpsChars v ++ rest)) := by
        simp
      rw [hs, parseStrChars_escChars]
      show (match parseV f (dumpsChars v ++ rest) with
            | some (v2, r3) => some ((String.mk k.data, v2), r3)
            | Option.none => Option.none) = some ((k, v), rest)
      rw [ihV v rest (by omega) hrest]
    · intro xs rest hlen
      cases xs with
      | nil => exact parseArrTail_rb f rest
      | cons x xs2 =>
        show parseArrTail (f + 1)
            (',' :: ((dumpsChars x ++ dumpsTail xs2) ++ ']' :: rest)) =
          some (.cons x xs2, rest)
        have hL : (dumpsChars x).length + (dumpsTail xs2).length + 1 < f + 1 := by
          have e : dumpsTail (PyList.cons x xs2) =
              ',' :: (dumpsChars x ++ dumpsTail xs2) := rfl
          rw [e] at hlen
          simp only [List.length_cons, List.length_append] at hlen
          omega
        rw [parseArrTail_comma]
        simp only [List.append_assoc]
        have h1 := ihV x (dumpsTail xs2 ++ ']' :: rest) (by omega)
          (headNotDigit_dumpsTail xs2 rest (by decide))
        have h2 := ihA xs2 rest (by omega)
        simp only [h1, h2]
    · intro fs rest hlen
      cases fs with
      | nil => exact parseObjTail_rb f rest
      | cons k v fs2 =>
        show parseObjTail (f + 1)
            (',' :: (((keyChars k ++ dumpsChars v) ++ dumpsFTail fs2) ++ '}' :: rest)) =
          some (.cons k v fs2, rest)
        have hL : (keyChars k).length + (dumpsChars v).length + (dumpsFTail fs2).length + 1
            < f + 1 := by
          have e : dumpsFTail (PyFields.cons k v fs2) =
              ',' :: ((keyChars k ++ dumpsChars v) ++ dumpsFTail fs2) := rfl
          rw [e] at hlen
          simp only [List.length_cons, List.length_append] at hlen
          omega
        have hK : 3 ≤ (keyChars k).length := by
          show 3 ≤ ('"' :: (escChars k.data ++ ['"', ':'])).length
          simp
        rw [parseObjTail_comma]
        simp only [List.append_assoc]
        have h1 := ihM k v (dumpsFTail fs2 ++ '}' :: rest) (by omega)
          (headNotDigit_dumpsFTail fs2 rest (by decide))
        have h2 := ihO fs2 rest (by omega)
        simp only [h1, h2]

theorem parse_dumps (v : PyObj) : parse (dumps v) = some v := by
  have e1 : (dumps v).length = (dumpsChars v).length := rfl
  have h := (roundTripAux (2 * (dumps v).length + 2)).1 v [] (by omega) trivial
  rw [List.append_nil] at h
  show (match parseV (2 * (dumps v).length + 2) (dumps v).data with
        | some (v2, []) => some v2
        | _ => Option.none) = some v
  have hd : (dumps v).data = dumpsChars v := rfl
  rw [hd, h]

theorem dumps_ne_empty (v : PyObj) : dumps v ≠ "" := by
  intro h
  have h2 : dumpsChars v = [] := by
    have h3 := congrArg String.data h
    simpa using h3
  exact dumpsChars_ne_nil v h2

theorem rlookup_head (k v : String) (t : Option Nat) (rest : RedisState) :
    rlookup ((k, v, t) :: rest) k = some (v, t) := by
  show (if k = k then some (v, t) else rlookup rest k) = some (v, t)
  rw [if_pos rfl]

theorem rlookup_set_json (st : RedisState) (k : String) (val : PyObj) (ttl : Option Nat) :
    ∃ t2, rlookup (set_json st k val ttl) k = some (dumps val, t2) := by
  cases ttl with
  | none => exact ⟨Option.none, rlookup_head k (dumps val) Option.none _⟩
  | some t =>
    by_cases ht : t ≠ 0
    · refine ⟨some t, ?_⟩
      show rlookup ((if t ≠ 0 then rsetex st k t (dumps val) else rset st k (dumps val))) k =
        some (dumps val, some t)
      rw [if_pos ht]
      exact rlookup_head k (dumps val) (some t) _
    · refine ⟨Option.none, ?_⟩
      show rlookup ((if t ≠ 0 then rsetex st k t (dumps val) else rset st k (dumps val))) k =
        some (dumps val, Option.none)
      rw [if_neg ht]
      exact rlookup_head k (dumps val) Option.none _

theorem rlookup_set_json_60 (st : RedisState) (k : String) (val : PyObj) :
    rlookup (set_json st k val (some 60)) k = some (dumps val, some 60) := by
  show rlookup (rsetex st k 60 (dumps val)) k = some (dumps val, some 60)
  exact rlookup_head k (dumps val) (some 60) _

theorem get_after_set (st : RedisState) (k : String) (val : PyObj) (ttl : Option Nat) :
    get_json (set_json st k val ttl) k = (val, GetLog.hit) := by
  obtain ⟨t2, hl⟩ := rlookup_set_json st k val ttl
  show (match rlookup (set_json st k val ttl) k with
        | some (v, _) =>
          if v = "" then (PyObj.none, GetLog.miss)
          else
            match parse v with
            | some obj => (obj, GetLog.hit)
            | Option.none => (PyObj.none, GetLog.decodeError)
        | Option.none => (PyObj.none, GetLog.miss)) = (val, GetLog.hit)
  rw [hl]
  show (if dumps val = "" then (PyObj.none, GetLog.miss)
        else
          match parse (dumps val) with
          | some obj => (obj, GetLog.hit)
          | Option.none => (PyObj.none, GetLog.decodeError)) = (val, GetLog.hit)
  rw [if_neg (dumps_ne_empty val), parse_dumps]

theorem retail_miss (since_days limit : Int) (report : PyObj) (e : Int) (st : RedisState)
    (h : (get_json st (retailReportKey since_days limit)).1 = PyObj.none) :
    retail_report_cached since_days limit report e st =
      { resp := _wrap (.cons "report" report .nil) e (some false) Option.none
        store := set_json st (retailReportKey since_days limit) report (some 60)
        computed := true } := by
  unfold retail_report_cached
  rw [h]
  rfl

theorem popular_miss (since_days limit : Int) (items : PyList) (e : Int) (st : RedisState)
    (h : (get_json st (popularKey since_days limit)).1 = PyObj.none) :
    popular_items_cached since_days limit items e st =
      { resp := _wrap (.cons "success" (.bool true) (.cons "popular_items" (.list items) .nil))
          e (some false) Option.none
        store := set_json st (popularKey since_days limit) (.list items) (some 60)
        computed := true } := by
  unfold popular_items_cached
  rw [h]
  rfl

theorem active_miss (since_days limit : Int) (rows : PyList) (e : Int) (st : RedisState)
    (h : (get_json st (activeShoppersKey since_days limit)).1 = PyObj.none) :
    active_shoppers_cached since_days limit rows e st =
      { resp := _wrap (.cons "total_count" (.int (pyLenList rows))
          (.cons "active_shoppers" (.list rows) .nil))
          e (some false) (some 60)
        store := set_json st (activeShoppersKey since_days limit) (.list rows) (some 60)
        computed := true } := by
  unfold active_shoppers_cached
  rw [h]
  rfl

/-- Claim C7: for every key and JSON-serializable value `v` (modelled over the
null/bool/int/str/list/dict value domain), `CacheStore.get` after
`CacheStore.set(key, v, ttl)` returns a value deep-equal to `v` — and it is a
logged HIT.  TTL expiry is outside the model (the claim is scoped to "before
TTL expiry", and stored TTLs do not elapse in the model). -/
theorem claim_C7 (st : RedisState) (k : String) (v : PyObj) (ttl : Option Nat) :
    get_json (set_json st k v ttl) k = (v, GetLog.hit) :=
  get_after_set st k v ttl

/-- Claim C5: whenever the stored value under a key is nonempty but fails to
deserialize, `get_json` returns the miss value `None` — it never raises, being
a total function whose decode failure branch is the caught exception — and the
failure is reported as the decode-error log event. -/
theorem claim_C5 (st : RedisState) (k s : String) (t : Option Nat)
    (hfind : rlookup st k = some (s, t)) (hne : s ≠ "")
    (hbad : parse s = Option.none) :
    get_json st k = (PyObj.none, GetLog.decodeError) := by
  show (match rlookup st k with
        | some (v, _) =>
          if v = "" then (PyObj.none, GetLog.miss)
          else
            match parse v with
            | some obj => (obj, GetLog.hit)
            | Option.none => (PyObj.none, GetLog.decodeError)
        | Option.none => (PyObj.none, GetLog.miss)) = (PyObj.none, GetLog.decodeError)
  rw [hfind]
  show (if s = "" then (PyObj.none, GetLog.miss)
        else
          match parse s with
          | some obj => (obj, GetLog.hit)
          | Option.none => (PyObj.none, GetLog.decodeError)) = (PyObj.none, GetLog.decodeError)
  rw [if_neg hne, hbad]

theorem claim_C5_witness :
    rlookup [("demo:report:x", "\x7bbad", Option.none)] "demo:report:x" =
      some ("\x7bbad", Option.none) ∧
    ("\x7bbad" : String) ≠ "" ∧
    parse "\x7bbad" = Option.none ∧
    get_json [("demo:report:x", "\x7bbad", Option.none)] "demo:report:x" =
      (PyObj.none, GetLog.decodeError) :=
  ⟨rfl, by decide, rfl,
    claim_C5 [("demo:report:x", "\x7bbad", Option.none)] "demo:report:x" "\x7bbad"
      Option.none rfl (by decide) rfl⟩

/-- Claim C10: a stored JSON `null` (or an empty stored string) makes
`get_json` return the same `None` value as an absent key, so every cached
endpoint treats such an entry as a miss and recomputes — the retail, popular
items and active shoppers endpoints run the query and report `cached = false`,
and `customer_detail` (for a well-formed id) proceeds to the database — so a
null result can never be served from the cache. -/
theorem claim_C10 (k : String) (t : Option Nat) (since_days limit : Int)
    (report : PyObj) (items rows : PyList) (uid : String) (sd : Option Int)
    (dbRow : Option CustRow) (tx : PyList) (e : Int)
    (hvalid : pyUUIDValid uid = true) :
    (get_json [(k, "null", t)] k).1 = PyObj.none ∧
    (get_json [(k, "", t)] k).1 = PyObj.none ∧
    (get_json ([] : RedisState) k).1 = PyObj.none ∧
    (retail_report_cached since_days limit report e
      [(retailReportKey since_days limit, "null", t)]).computed = true ∧
    plookup (retail_report_cached since_days limit report e
      [(retailReportKey since_days limit, "null", t)]).resp "cached" =
      some (PyObj.bool false) ∧
    (popular_items_cached since_days limit items e
      [(popularKey since_days limit, "null", t)]).computed = true ∧
    (active_shoppers_cached since_days limit rows e
      [(activeShoppersKey since_days limit, "null", t)]).computed = true ∧
    (customer_detail uid sd dbRow tx e [(customerKey uid sd, "null", t)]).dbCalled = true := by
  have hnull : ∀ k2 : String, get_json [(k2, "null", t)] k2 = (PyObj.none, GetLog.hit) := by
    intro k2
    show (match rlookup [(k2, "null", t)] k2 with
          | some (v, _) =>
            if v = "" then (PyObj.none, GetLog.miss)
            else
              match parse v with
              | some obj => (obj, GetLog.hit)
              | Option.none => (PyObj.none, GetLog.decodeError)
          | Option.none => (PyObj.none, GetLog.miss)) = (PyObj.none, GetLog.hit)
    rw [rlookup_head]
    rfl
  have hempty : get_json [(k, "", t)] k = (PyObj.none, GetLog.miss) := by
    show (match rlookup [(k, "", t)] k with
          | some (v, _) =>
            if v = "" then (PyObj.none, GetLog.miss)
          else
            match parse v with
            | some obj => (obj, GetLog.hit)
            | Option.none => (PyObj.none, GetLog.decodeError)
          | Option.none => (PyObj.none, GetLog.miss)) = (PyObj.none, GetLog.miss)
    rw [rlookup_head]
    rfl
  have hm1 : (get_json [(retailReportKey since_days limit, "null", t)]
      (retailReportKey since_days limit)).1 = PyObj.none := by rw [hnull]
  have hm2 : (get_json [(popularKey since_days limit, "null", t)]
      (popularKey since_days limit)).1 = PyObj.none := by rw [hnull]
  have hm3 : (get_json [(activeShoppersKey since_days limit, "null", t)]
      (activeShoppersKey since_days limit)).1 = PyObj.none := by rw [hnull]
  have hre := retail_miss since_days limit report e
    [(retailReportKey since_days limit, "null", t)] hm1
  have hpo := popular_miss since_days limit items e
    [(popularKey since_days limit, "null", t)] hm2
  have hac := active_miss since_days limit rows e
    [(activeShoppersKey since_days limit, "null", t)] hm3
  have hcu : (customer_detail uid sd dbRow tx e
      [(customerKey uid sd, "null", t)]).dbCalled = true := by
    unfold customer_detail
    rw [hvalid, if_neg (by decide : ¬ (true = false)), hnull]
    cases dbRow with
    | none => rfl
    | some row => rfl
  refine ⟨by rw [hnull], by rw [hempty], rfl, by rw [hre], ?_, by rw [hpo], by rw [hac], hcu⟩
  rw [hre]
  rfl

theorem claim_C10_witness :
    pyUUIDValid "00000000-0000-0000-0000-000000000000" = true ∧
    (get_json [("demo:popular:30:10", "null", Option.none)] "demo:popular:30:10").1 =
      PyObj.none ∧
    (popular_items_cached 30 10 PyList.nil 4
      [(popularKey 30 10, "null", Option.none)]).computed = true ∧
    (customer_detail "00000000-0000-0000-0000-000000000000" Option.none Option.none
      PyList.nil 4
      [(customerKey "00000000-0000-0000-0000-000000000000" Option.none, "null",
        Option.none)]).dbCalled = true :=
  ⟨by decide,
    (claim_C10 "demo:popular:30:10" Option.none 30 10 (PyObj.dict .nil) PyList.nil
      PyList.nil "00000000-0000-0000-0000-000000000000" Option.none Option.none
      PyList.nil 4 (by decide)).1,
    (claim_C10 "demo:popular:30:10" Option.none 30 10 (PyObj.dict .nil) PyList.nil
      PyList.nil "00000000-0000-0000-0000-000000000000" Option.none Option.none
      PyList.nil 4 (by decide)).2.2.2.2.2.2.1,
    (claim_C10 "demo:popular:30:10" Option.none 30 10 (PyObj.dict .nil) PyList.nil
      PyList.nil "00000000-0000-0000-0000-000000000000" Option.none Option.none
      PyList.nil 4 (by decide)).2.2.2.2.2.2.2⟩

theorem dropWhile_append_cases (p : Char → Bool) (l1 l2 : List Char) :
    (l1 ++ l2).dropWhile p =
      if (l1.dropWhile p).isEmpty then l2.dropWhile p else l1.dropWhile p ++ l2 := by
  induction l1 with
  | nil => simp
  | cons a l ih =>
    by_cases hp : p a = true
    · simp only [List.cons_append, List.dropWhile_cons, hp, if_true]
      exact ih
    · simp only [List.cons_append, List.dropWhile_cons, hp, if_false]
      simp

theorem trimEnd_append_colon (x : List Char) : trimEnd (x ++ [':']) = trimEnd x := by
  unfold trimEnd
  rw [List.reverse_append]
  show ((':' :: x.reverse).dropWhile (fun c => decide (c = ':'))).reverse = _
  rw [List.dropWhile_cons]
  simp

theorem dropWhile_colon_cons (l : List Char) :
    List.dropWhile (fun c => decide (c = ':')) (':' :: l) =
      List.dropWhile (fun c => decide (c = ':')) l := by
  rw [List.dropWhile_cons]
  simp

theorem stripColons_pad (a : String) : stripColons (":" ++ a ++ ":") = stripColons a := by
  unfold stripColons
  have hd : (":" ++ a ++ ":").data = ':' :: (a.data ++ [':']) := by
    simp [String.data_append]
  rw [hd, dropWhile_colon_cons, dropWhile_append_cases]
  by_cases he : (a.data.dropWhile (fun c => decide (c = ':'))).isEmpty = true
  · rw [if_pos he]
    have h2 : a.data.dropWhile (fun c => decide (c = ':')) = [] :=
      List.isEmpty_iff.mp he
    rw [h2]
    rfl
  · rw [if_neg he, trimEnd_append_colon]

/-- Claim C8: the key builder omits `None` parts entirely — inserting a `None`
anywhere in the part list leaves the key unchanged — and each part is trimmed
of leading and trailing `:` delimiter characters before joining, so padding a
part with colons leaves the key unchanged.  Stated over `keyP`, the builder
with its namespace prefix explicit; `key` is `keyP` at the configured prefix. -/
theorem claim_C8 (pfx a : String) (xs ys : List (Option String)) :
    keyP pfx (xs ++ Option.none :: ys) = keyP pfx (xs ++ ys) ∧
    keyP pfx (some (":" ++ a ++ ":") :: ys) = keyP pfx (some a :: ys) ∧
    key (xs ++ Option.none :: ys) = key (xs ++ ys) := by
  have h1 : ∀ pfx2, keyP pfx2 (xs ++ Option.none :: ys) = keyP pfx2 (xs ++ ys) := by
    intro pfx2
    unfold keyP
    have h2 : (xs ++ Option.none :: ys).filterMap id = (xs ++ ys).filterMap id := by
      simp [List.filterMap_append, List.filterMap_cons]
    rw [h2]
  refine ⟨h1 pfx, ?_, h1 CACHE_PREFIX⟩
  unfold keyP
  have h3 : ((some (":" ++ a ++ ":") :: ys).filterMap id).map stripColons =
      ((some a :: ys).filterMap id).map stripColons := by
    simp only [List.filterMap_cons, id]
    simp only [List.map_cons]
    rw [stripColons_pad]
  rw [h3]

/-- Claim C1 fails as stated: `retail_report_cached` builds its cache key from
the raw `since_days`, so the two all-time-equivalent requests `since_days = 0`
and `since_days = -5` (same `limit`) produce different cache keys. -/
theorem claim_C1_counterexample :
    retailReportKey 0 10 = "demo:report:retail:0:10" ∧
    retailReportKey (-5) 10 = "demo:report:retail:-5:10" ∧
    retailReportKey 0 10 ≠ retailReportKey (-5) 10 := by
  refine ⟨rfl, rfl, ?_⟩
  decide

/-- Claim C1, amended: only `active_shoppers_cached` normalizes a parameter
before key construction — its limit is clamped (positive values capped at
1200, non-positive values mapped to the `all` sentinel), so any two limits
with the same clamp yield the identical key; `since_days` is not normalized
anywhere, so equivalent non-positive values (0 and -5) yield different keys
(see the counterexample). -/
theorem claim_C1 (since_days l1 l2 : Int) (h : clampLimit l1 = clampLimit l2) :
    activeShoppersKey since_days l1 = activeShoppersKey since_days l2 := by
  unfold activeShoppersKey
  rw [h]

theorem claim_C1_witness :
    clampLimit 1500 = clampLimit 2000 ∧
    clampLimit 0 = clampLimit (-7) ∧
    activeShoppersKey 30 1500 = activeShoppersKey 30 2000 :=
  ⟨by decide, by decide, claim_C1 30 1500 2000 (by decide)⟩

/-- Claim C4 fails as stated: on the retail report's miss path the result is
stored with a 60-second TTL, yet the response envelope reports
`ttl_seconds = null`, not the assigned TTL. -/
theorem claim_C4_counterexample :
    (rlookup (retail_report_cached 30 10 (PyObj.dict .nil) 7 []).store
      (retailReportKey 30 10)).map (fun entry => entry.2) = some (some 60) ∧
    plookup (retail_report_cached 30 10 (PyObj.dict .nil) 7 []).resp "ttl_seconds" =
      some PyObj.none ∧
    PyObj.none ≠ PyObj.int 60 := by
  refine ⟨rfl, rfl, ?_⟩
  intro h
  exact PyObj.noConfusion h

/-- Claim C4, amended: on every cache-miss path the computed result is stored
with the 60-second report TTL and the envelope carries `cached = false`; the
envelope's `ttl_seconds` equals the assigned TTL only in
`active_shoppers_cached` — `retail_report_cached` and `popular_items_cached`
report `ttl_seconds = null` on their miss paths. -/
theorem claim_C4 (since_days limit : Int) (report : PyObj) (items rows : PyList)
    (e1 e2 e3 : Int) (st1 st2 st3 : RedisState)
    (h1 : (get_json st1 (retailReportKey since_days limit)).1 = PyObj.none)
    (h2 : (get_json st2 (popularKey since_days limit)).1 = PyObj.none)
    (h3 : (get_json st3 (activeShoppersKey since_days limit)).1 = PyObj.none) :
    (plookup (retail_report_cached since_days limit report e1 st1).resp "cached" =
        some (PyObj.bool false) ∧
      plookup (retail_report_cached since_days limit report e1 st1).resp "ttl_seconds" =
        some PyObj.none ∧
      (rlookup (retail_report_cached since_days limit report e1 st1).store
        (retailReportKey since_days limit)).map (fun entry => entry.2) = some (some 60)) ∧
    (plookup (popular_items_cached since_days limit items e2 st2).resp "cached" =
        some (PyObj.bool false) ∧
      plookup (popular_items_cached since_days limit items e2 st2).resp "ttl_seconds" =
        some PyObj.none ∧
      (rlookup (popular_items_cached since_days limit items e2 st2).store
        (popularKey since_days limit)).map (fun entry => entry.2) = some (some 60)) ∧
    (plookup (active_shoppers_cached since_days limit rows e3 st3).resp "cached" =
        some (PyObj.bool false) ∧
      plookup (active_shoppers_cached since_days limit rows e3 st3).resp "ttl_seconds" =
        some (PyObj.int 60) ∧
      (rlookup (active_shoppers_cached since_days limit rows e3 st3).store
        (activeShoppersKey since_days limit)).map (fun entry => entry.2) = some (some 60)) := by
  rw [retail_miss since_days limit report e1 st1 h1,
    popular_miss since_days limit items e2 st2 h2,
    active_miss since_days limit rows e3 st3 h3]
  refine ⟨⟨rfl, rfl, ?_⟩, ⟨rfl, rfl, ?_⟩, ⟨rfl, rfl, ?_⟩⟩
  · rw [rlookup_set_json_60]
    rfl
  · rw [rlookup_set_json_60]
    rfl
  · rw [rlookup_set_json_60]
    rfl

theorem claim_C4_witness :
    (get_json [] (retailReportKey 30 10)).1 = PyObj.none ∧
    (get_json [] (popularKey 30 10)).1 = PyObj.none ∧
    (get_json [] (activeShoppersKey 30 10)).1 = PyObj.none ∧
    plookup (active_shoppers_cached 30 10 PyList.nil 4 []).resp "ttl_seconds" =
      some (PyObj.int 60) ∧
    plookup (retail_report_cached 30 10 (PyObj.dict .nil) 4 []).resp "ttl_seconds" =
      some PyObj.none :=
  ⟨rfl, rfl, rfl,
    (claim_C4 30 10 (PyObj.dict .nil) PyList.nil PyList.nil 4 4 4 [] [] []
      rfl rfl rfl).2.2.2.1,
    (claim_C4 30 10 (PyObj.dict .nil) PyList.nil PyList.nil 4 4 4 [] [] []
      rfl rfl rfl).1.2.1⟩

/-- Claim C3 fails against the code: `delete_prefix` does delete every key
under the prefix and counts the deletions, but its body has no return
statement, so it returns `None` rather than the count — `clear_data`, which
binds `removed = delete_prefix(...)`, interpolates `None` into its message.
The claim (and `clear_data`) expect the count, `0` when nothing matched. -/
theorem claim_C3 :
    ( delete_prefix [("demo:report:retail:0:10", "x", some 60),
        ("other:key", "y", Option.none)] "demo:").store =
      [("other:key", "y", Option.none)] ∧
    ( delete_prefix [("demo:report:retail:0:10", "x", some 60),
        ("other:key", "y", Option.none)] "demo:").count = 1 ∧
    ( delete_prefix [("demo:report:retail:0:10", "x", some 60),
        ("other:key", "y", Option.none)] "demo:").ret = Option.none ∧
    ( delete_prefix ([] : RedisState) "demo:").ret = Option.none ∧
    ( delete_prefix ([] : RedisState) "demo:").count = 0 ∧
    ( delete_prefix ([] : RedisState) "demo:").ret ≠ some 0 ∧
    clear_data_message [] = "Database wiped and None Redis keys cleared." := by
  refine ⟨rfl, rfl, rfl, rfl, rfl, ?_, rfl⟩
  intro h
  exact Option.noConfusion h

/-- Claim C6: when the customer SELECT finds no row (the NotFound case), the
computation's failure is propagated to the caller as the 404 HTTPException and
nothing is written to the cache — the Redis state is returned unchanged. -/
theorem claim_C6 (user_id : String) (since_days : Option Int) (tx : PyList) (e : Int)
    (st : RedisState)
    (hvalid : pyUUIDValid user_id = true)
    (hmiss : (get_json st (customerKey user_id since_days)).1 = PyObj.none) :
    (customer_detail user_id since_days Option.none tx e st).result =
      Except.error { status := 404, detail := "Customer not found" } ∧
    (customer_detail user_id since_days Option.none tx e st).store = st := by
  unfold customer_detail
  rw [hvalid, if_neg (by decide : ¬ (true = false)), hmiss]
  exact ⟨rfl, rfl⟩

theorem claim_C6_witness :
    pyUUIDValid "00000000-0000-0000-0000-000000000000" = true ∧
    (get_json []
      (customerKey "00000000-0000-0000-0000-000000000000" Option.none)).1 = PyObj.none ∧
    (customer_detail "00000000-0000-0000-0000-000000000000" Option.none Option.none
      PyList.nil 5 []).result =
      Except.error { status := 404, detail := "Customer not found" } ∧
    (customer_detail "00000000-0000-0000-0000-000000000000" Option.none Option.none
      PyList.nil 5 []).store = [] :=
  ⟨by decide, rfl,
    (claim_C6 "00000000-0000-0000-0000-000000000000" Option.none PyList.nil 5 []
      (by decide) rfl).1,
    (claim_C6 "00000000-0000-0000-0000-000000000000" Option.none PyList.nil 5 []
      (by decide) rfl).2⟩

/-- Claim C9: a request whose user_id is not a valid UUID is rejected with the
400 InvalidParams HTTPException before anything else happens: no cache
operation is performed, the database is not queried, and the Redis state is
unchanged. -/
theorem claim_C9 (user_id : String) (since_days : Option Int) (dbRow : Option CustRow)
    (tx : PyList) (e : Int) (st : RedisState)
    (h : pyUUIDValid user_id = false) :
    customer_detail user_id since_days dbRow tx e st =
      { result := Except.error { status := 400, detail := "Invalid user_id" }
        store := st, cacheAccessed := false, dbCalled := false } := by
  unfold customer_detail
  rw [h]
  rfl

theorem claim_C9_witness :
    pyUUIDValid "not-a-uuid" = false ∧
    customer_detail "not-a-uuid" (some 30) Option.none PyList.nil 3 [] =
      { result := Except.error { status := 400, detail := "Invalid user_id" }
        store := [], cacheAccessed := false, dbCalled := false } :=
  ⟨by decide, claim_C9 "not-a-uuid" (some 30) Option.none PyList.nil 3 [] (by decide)⟩

/-- Claim C2 fails as stated: the code has no single-flight coordination, so
with two concurrent callers of `retail_report_cached` on a never-before-seen
key, the interleaving in which both cache reads happen before either
computation finishes invokes the report computation twice, not exactly once. -/
theorem claim_C2_counterexample :
    (runSched (retailReportKey 30 10) (PyObj.dict (.cons "x" (.int 1) .nil)) [0, 1, 0, 1]
      (freshSys 2)).computeCount = 2 ∧
    (runSched (retailReportKey 30 10) (PyObj.dict (.cons "x" (.int 1) .nil)) [0, 1, 0, 1]
      (freshSys 2)).computeCount ≠ 1 ∧
    (runSched (retailReportKey 30 10) (PyObj.dict (.cons "x" (.int 1) .nil)) [0, 1, 0, 1]
      (freshSys 2)).callers = [CPhase.finished false, CPhase.finished false] :=
  ⟨rfl, by decide, rfl⟩

/-- Claim C2, amended: without single-flight protection the number of
computations depends on the interleaving.  For two callers of
`retail_report_cached` on a fresh key and a non-null report: under the
serialized interleaving the computation runs once and the second caller is
served from the cache, while under the read-read-compute-compute interleaving
it runs twice and neither caller is served from the cache. -/
theorem claim_C2 (k : String) (report : PyObj) (h : isPyNone report = false) :
    (runSched k report [0, 0, 1, 1] (freshSys 2)).computeCount = 1 ∧
    (runSched k report [0, 0, 1, 1] (freshSys 2)).callers =
      [CPhase.finished false, CPhase.finished true] ∧
    (runSched k report [0, 1, 0, 1] (freshSys 2)).computeCount = 2 ∧
    (runSched k report [0, 1, 0, 1] (freshSys 2)).callers =
      [CPhase.finished false, CPhase.finished false] := by
  have hs : stepCaller k report (set_json [] k report (some 60)) CPhase.toRead =
      (set_json [] k report (some 60), CPhase.finished true, 0) := by
    show (if isPyNone (get_json (set_json [] k report (some 60)) k).1 = true then
            (set_json [] k report (some 60), CPhase.toCompute, 0)
          else (set_json [] k report (some 60), CPhase.finished true, 0)) =
        (set_json [] k report (some 60), CPhase.finished true, 0)
    rw [get_after_set]
    show (if isPyNone report = true then
            (set_json [] k report (some 60), CPhase.toCompute, 0)
          else (set_json [] k report (some 60), CPhase.finished true, 0)) =
        (set_json [] k report (some 60), CPhase.finished true, 0)
    rw [h]
    rfl
  have e2s : schedStep k report
      { store := set_json [] k report (some 60)
        callers := [CPhase.finished false, CPhase.toRead], computeCount := 1 } 1 =
      { store := set_json [] k report (some 60)
        callers := [CPhase.finished false, CPhase.finished true], computeCount := 1 } := by
    show { store := (stepCaller k report (set_json [] k report (some 60)) CPhase.toRead).1
           callers := [CPhase.finished false, CPhase.toRead].set 1
             (stepCaller k report (set_json [] k report (some 60)) CPhase.toRead).2.1
           computeCount :=
             1 + (stepCaller k report (set_json [] k report (some 60)) CPhase.toRead).2.2 } =
        ({ store := set_json [] k report (some 60)
           callers := [CPhase.finished false, CPhase.finished true], computeCount := 1 } : Sys)
    rw [hs]
    rfl
  have e4 : runSched k report [0, 0, 1, 1] (freshSys 2) =
      { store := set_json [] k report (some 60)
        callers := [CPhase.finished false, CPhase.finished true], computeCount := 1 } := by
    show runSched k report [1]
        (schedStep k report
          { store := set_json [] k report (some 60)
            callers := [CPhase.finished false, CPhase.toRead], computeCount := 1 } 1) =
      { store := set_json [] k report (some 60)
        callers := [CPhase.finished false, CPhase.finished true], computeCount := 1 }
    rw [e2s]
    rfl
  exact ⟨by rw [e4], by rw [e4], rfl, rfl⟩

theorem claim_C2_witness :
    isPyNone (PyObj.dict (.cons "x" (.int 1) .nil)) = false ∧
    (runSched "demo:report:retail:30:10" (PyObj.dict (.cons "x" (.int 1) .nil)) [0, 0, 1, 1]
      (freshSys 2)).computeCount = 1 ∧
    (runSched "demo:report:retail:30:10" (PyObj.dict (.cons "x" (.int 1) .nil)) [0, 1, 0, 1]
      (freshSys 2)).computeCount = 2 :=
  ⟨rfl,
    (claim_C2 "demo:report:retail:30:10" (PyObj.dict (.cons "x" (.int 1) .nil)) rfl).1,
    (claim_C2 "demo:report:retail:30:10" (PyObj.dict (.cons "x" (.int 1) .nil)) rfl).2.2.1⟩
